import Mathlib

/-!
Shallow embedding of the example Solana vault program
(src/examples/example-solana.rs, module example_solana_program).

The program keeps one State record (authority pubkey, bump, total_deposited)
and exposes three handlers: an initializer, deposit, withdraw.  The external
token::transfer CPI is an opaque collaborator: each handler receives the
outcome of that call as an explicit input, and the list of CPI transfer calls
a handler issues is recorded in its result, so that claims about which
transfers are attempted can be stated.

Machine integers: total_deposited is a u64; the source increments it with the
unchecked Rust addition total_deposited += amount, which under the default
release profile wraps modulo 2^64.  The embedding therefore uses Nat with an
explicit reduction modulo 2^64 at that one addition.
-/

namespace ExampleSolanaProgram

/-- Pubkey identities: either an ordinary account key, or a program-derived
address obtained deterministically from a seed label and a bump byte (the
pattern the source uses for the state account, seeds [b"state", [state.bump]]). -/
inductive Identity where
  | user (k : Nat)
  | derived (label : Nat) (bump : Nat)
deriving DecidableEq

/-- Seed label of the PDA the program signs with; the source uses the fixed
byte string b"state" as the only domain label.  Encoded as the constant 0. -/
def stateSeed : Nat := 0

/-- Error variants declared in the source error_code enum: Unauthorized and
InsufficientBalance, in declaration order.  No other variant exists. -/
inductive ErrorCode where
  | Unauthorized
  | InsufficientBalance
deriving DecidableEq

/-- Failure modes of the external transfer collaborator (opaque to the
program; it only propagates them). -/
inductive TransferError where
  | InsufficientFunds
  | AccountMismatch
  | Unauthorized
deriving DecidableEq

/-- Result of running one handler: success, one of the program error codes
raised by require, an error propagated from the transfer CPI, or the
framework-level failure of the account init constraint. -/
inductive TxResult where
  | ok
  | code (c : ErrorCode)
  | cpi (e : TransferError)
  | alreadyInitialized
deriving DecidableEq

/-- VaultState record (source: pub struct State with fields authority: Pubkey,
bump: u8, total_deposited: u64).  total_deposited is kept as a Nat and every
operation keeps it below 2^64. -/
structure State where
  authority : Identity
  bump : Nat
  total_deposited : Nat
deriving DecidableEq

/-- One CPI call to the external transfer collaborator, as built by the
handlers: source account, destination account, the authorizing identity, and
the amount. -/
structure TransferCall where
  source : Identity
  dest : Identity
  authorized_by : Identity
  amount : Nat
deriving DecidableEq

/-- Outcome of one handler: the transaction result, the post state of type σ
(the pre state when the handler failed), and the list of transfer CPI calls
the handler issued. -/
structure OpResult (σ : Type) where
  result : TxResult
  state : σ
  cpis : List TransferCall
deriving DecidableEq

/-- Derivation of the program-owned signing identity from a seed label and a
bump, as performed in withdraw via seeds [b"state", [state.bump]].  A pure
function, hence deterministic: equal inputs give equal identities. -/
def deriveSigningIdentity (label : Nat) (bump : Nat) : Identity :=
  Identity.derived label bump

/-- Body of the initializer handler (source fn at lines 15 to 21): it sets
authority to the caller key, bump to the passed bump, total_deposited to 0. -/
def initializeBody (caller : Identity) (bump : Nat) : State :=
  { authority := caller, bump := bump, total_deposited := 0 }

/-- Modelled from the spec: the account init constraint on Initialize.state
lives in the anchor-lang framework, not in src.  Per the spec, a second call
against an existing vault state fails with AlreadyInitialized and leaves the
stored record unchanged; on an absent record the handler body from src runs
and creates the state.  No transfer CPI is issued either way. -/
def initializeOp (store : Option State) (caller : Identity) (bump : Nat) :
    OpResult (Option State) :=
  match store with
  | some s => { result := TxResult.alreadyInitialized, state := some s, cpis := [] }
  | none => { result := TxResult.ok, state := some (initializeBody caller bump), cpis := [] }

/-- Deposit handler (source lines 23 to 39): builds the transfer CPI from the
user token account to the vault token account authorized by the user, issues
it with no prior validation of the amount, propagates a transfer failure with
the question mark operator, and on success runs the unchecked u64 increment
total_deposited += amount, embedded as addition modulo 2^64. -/
def deposit (s : State) (user userTok vaultTok : Identity) (amount : Nat)
    (transferResult : Except TransferError Unit) : OpResult State :=
  let call : TransferCall :=
    { source := userTok, dest := vaultTok, authorized_by := user, amount := amount }
  match transferResult with
  | Except.error e => { result := TxResult.cpi e, state := s, cpis := [call] }
  | Except.ok _ =>
      { result := TxResult.ok,
        state := { s with total_deposited := (s.total_deposited + amount) % 2 ^ 64 },
        cpis := [call] }

/-- Withdraw handler (source lines 41 to 66): require that the caller key
equals state.authority, failing with Unauthorized before any CPI; then issue
the transfer CPI from the vault token account to the user token account,
authorized by the PDA re-derived from the fixed seed label and state.bump, and
propagate its outcome.  No field of the state is mutated on any path. -/
def withdraw (s : State) (caller userTok vaultTok : Identity) (amount : Nat)
    (transferResult : Except TransferError Unit) : OpResult State :=
  if caller = s.authority then
    let call : TransferCall :=
      { source := vaultTok, dest := userTok,
        authorized_by := deriveSigningIdentity stateSeed s.bump, amount := amount }
    match transferResult with
    | Except.error e => { result := TxResult.cpi e, state := s, cpis := [call] }
    | Except.ok _ => { result := TxResult.ok, state := s, cpis := [call] }
  else
    { result := TxResult.code ErrorCode.Unauthorized, state := s, cpis := [] }

/-- One operation of a post-initialization trace: a deposit or a withdraw,
carrying its account inputs, its amount, and the oracle outcome of the
external transfer CPI it would issue. -/
inductive Op where
  | dep (user userTok vaultTok : Identity) (amount : Nat) (tr : Except TransferError Unit)
  | wd (caller userTok vaultTok : Identity) (amount : Nat) (tr : Except TransferError Unit)

/-- Running one trace operation against a state. -/
def step (s : State) : Op → OpResult State
  | Op.dep u ut vt a tr => deposit s u ut vt a tr
  | Op.wd c ut vt a tr => withdraw s c ut vt a tr

/-- Running a trace of operations, threading the state. -/
def run : State → List Op → State
  | s, [] => s
  | s, op :: ops => run (step s op).state ops

/-- Amounts of the deposits of a trace that succeed when the trace is run from
the given state, in order; failed deposits and withdraws contribute nothing. -/
def successfulDepositAmounts : State → List Op → List Nat
  | _, [] => []
  | s, Op.dep u ut vt a tr :: ops =>
      let r := deposit s u ut vt a tr
      if r.result = TxResult.ok then a :: successfulDepositAmounts r.state ops
      else successfulDepositAmounts r.state ops
  | s, Op.wd c ut vt a tr :: ops =>
      successfulDepositAmounts (withdraw s c ut vt a tr).state ops

/-- Deposit amount carried by a trace operation; 0 for a withdraw. -/
def opDepositAmount : Op → Nat
  | Op.dep _ _ _ a _ => a
  | Op.wd _ _ _ _ _ => 0

/-- Recognizer for withdraw trace operations. -/
def isWd : Op → Bool
  | Op.dep _ _ _ _ _ => false
  | Op.wd _ _ _ _ _ => true

/-- Recognizer for results that are one of the program error codes. -/
def isProgramCode : TxResult → Bool
  | TxResult.code _ => true
  | _ => false

/-- Recognizer for the InsufficientBalance program error. -/
def isInsufficientBalanceErr : TxResult → Bool
  | TxResult.code ErrorCode.InsufficientBalance => true
  | _ => false

/-- Recognizer for plain user keys among identities. -/
def isUserKey : Identity → Bool
  | Identity.user _ => true
  | Identity.derived _ _ => false

/-- List of the error variants the source error_code enum declares, in
declaration order. -/
def declaredErrorCodes : List ErrorCode :=
  [ErrorCode.Unauthorized, ErrorCode.InsufficientBalance]

theorem deposit_ok_eq (s : State) (u ut vt : Identity) (a : Nat) :
    deposit s u ut vt a (Except.ok ())
      = { result := TxResult.ok,
          state := { s with total_deposited := (s.total_deposited + a) % 2 ^ 64 },
          cpis := [{ source := ut, dest := vt, authorized_by := u, amount := a }] } :=
  rfl

theorem deposit_err_eq (s : State) (u ut vt : Identity) (a : Nat) (e : TransferError) :
    deposit s u ut vt a (Except.error e)
      = { result := TxResult.cpi e, state := s,
          cpis := [{ source := ut, dest := vt, authorized_by := u, amount := a }] } :=
  rfl

theorem withdraw_unauthorized_eq (s : State) (caller ut vt : Identity) (a : Nat)
    (tr : Except TransferError Unit) (h : ¬ caller = s.authority) :
    withdraw s caller ut vt a tr
      = { result := TxResult.code ErrorCode.Unauthorized, state := s, cpis := [] } := by
  unfold withdraw
  rw [if_neg h]

theorem withdraw_authorized_eq (s : State) (caller ut vt : Identity) (a : Nat)
    (tr : Except TransferError Unit) (h : caller = s.authority) :
    withdraw s caller ut vt a tr
      = { result := match tr with
            | Except.error e => TxResult.cpi e
            | Except.ok _ => TxResult.ok,
          state := s,
          cpis := [{ source := vt, dest := ut,
                     authorized_by := deriveSigningIdentity stateSeed s.bump,
                     amount := a }] } := by
  unfold withdraw
  rw [if_pos h]
  cases tr <;> rfl

theorem withdraw_state_eq (s : State) (caller ut vt : Identity) (a : Nat)
    (tr : Except TransferError Unit) :
    (withdraw s caller ut vt a tr).state = s := by
  by_cases h : caller = s.authority
  · rw [withdraw_authorized_eq s caller ut vt a tr h]
  · rw [withdraw_unauthorized_eq s caller ut vt a tr h]

theorem run_total_mod (ops : List Op) : ∀ s : State, s.total_deposited < 2 ^ 64 →
    (run s ops).total_deposited
      = (s.total_deposited + (successfulDepositAmounts s ops).sum) % 2 ^ 64 := by
  induction ops with
  | nil =>
    intro s h
    simp only [run, successfulDepositAmounts, List.sum_nil, Nat.add_zero]
    exact (Nat.mod_eq_of_lt h).symm
  | cons op ops ih =>
    intro s h
    cases op with
    | dep u ut vt a tr =>
      cases tr with
      | error e =>
        simpa [run, step, successfulDepositAmounts, deposit_err_eq] using ih s h
      | ok v =>
        cases v
        have hm : (s.total_deposited + a) % 2 ^ 64 < 2 ^ 64 :=
          Nat.mod_lt _ (by norm_num)
        have hih := ih { s with total_deposited := (s.total_deposited + a) % 2 ^ 64 } hm
        simp only [run, step, successfulDepositAmounts, deposit_ok_eq, List.sum_cons,
          reduceIte, if_pos]
        rw [hih, Nat.mod_add_mod, Nat.add_assoc]
    | wd c ut vt a tr =>
      simp only [run, step, successfulDepositAmounts, withdraw_state_eq]
      exact ih s h

/-- C1: withdraw succeeds only when the caller equals the stored authority; for
any other caller it fails with ErrorCode.Unauthorized, issues no transfer CPI,
and returns the vault state unchanged. -/
theorem c1_withdraw_access_control (s : State) (caller ut vt : Identity) (a : Nat)
    (tr : Except TransferError Unit) :
    ((withdraw s caller ut vt a tr).result = TxResult.ok → caller = s.authority) ∧
    (caller ≠ s.authority →
      (withdraw s caller ut vt a tr).result = TxResult.code ErrorCode.Unauthorized ∧
      (withdraw s caller ut vt a tr).cpis = [] ∧
      (withdraw s caller ut vt a tr).state = s) := by
  by_cases h : caller = s.authority
  · exact ⟨fun _ => h, fun hne => absurd h hne⟩
  · refine ⟨fun hok => ?_, fun _ => ?_⟩
    · rw [withdraw_unauthorized_eq s caller ut vt a tr h] at hok
      simp at hok
    · rw [withdraw_unauthorized_eq s caller ut vt a tr h]
      exact ⟨rfl, rfl, rfl⟩

/-- C1 witness: a concrete caller distinct from the authority is rejected with
Unauthorized, no CPI, state unchanged. -/
theorem c1_withdraw_access_control_witness :
    Identity.user 5 ≠ (State.mk (Identity.user 0) 1 0).authority ∧
    ((withdraw (State.mk (Identity.user 0) 1 0) (Identity.user 5) (Identity.user 6)
        (Identity.user 7) 3 (Except.ok ())).result
          = TxResult.code ErrorCode.Unauthorized ∧
     (withdraw (State.mk (Identity.user 0) 1 0) (Identity.user 5) (Identity.user 6)
        (Identity.user 7) 3 (Except.ok ())).cpis = [] ∧
     (withdraw (State.mk (Identity.user 0) 1 0) (Identity.user 5) (Identity.user 6)
        (Identity.user 7) 3 (Except.ok ())).state = State.mk (Identity.user 0) 1 0) :=
  ⟨by decide,
   (c1_withdraw_access_control (State.mk (Identity.user 0) 1 0) (Identity.user 5)
      (Identity.user 6) (Identity.user 7) 3 (Except.ok ())).2 (by decide)⟩

/-- C2 counterexample: with total_deposited at the u64 maximum, depositing 1
with a successful transfer does not fail with any error; it succeeds and
total_deposited silently wraps to 0. -/
theorem c2_overflow_counterexample :
    (deposit (State.mk (Identity.user 0) 1 (2 ^ 64 - 1)) (Identity.user 1)
        (Identity.user 2) (Identity.user 3) 1 (Except.ok ())).result = TxResult.ok ∧
    (deposit (State.mk (Identity.user 0) 1 (2 ^ 64 - 1)) (Identity.user 1)
        (Identity.user 2) (Identity.user 3) 1
        (Except.ok ())).state.total_deposited = 0 :=
  ⟨rfl, rfl⟩

/-- C2 (amended): a deposit whose amount would overflow the u64 accumulator
does not fail (no Overflow variant exists in the declared taxonomy): when the
transfer succeeds the deposit succeeds and total_deposited wraps to
(total_deposited + amount) % 2^64, strictly below the exact sum. -/
theorem c2_deposit_wraps (s : State) (u ut vt : Identity) (a : Nat)
    (h : 2 ^ 64 ≤ s.total_deposited + a) :
    (deposit s u ut vt a (Except.ok ())).result = TxResult.ok ∧
    (deposit s u ut vt a (Except.ok ())).state.total_deposited
        = (s.total_deposited + a) % 2 ^ 64 ∧
    (deposit s u ut vt a (Except.ok ())).state.total_deposited
        < s.total_deposited + a := by
  refine ⟨rfl, rfl, ?_⟩
  calc (deposit s u ut vt a (Except.ok ())).state.total_deposited
      = (s.total_deposited + a) % 2 ^ 64 := rfl
    _ < 2 ^ 64 := Nat.mod_lt _ (by norm_num)
    _ ≤ s.total_deposited + a := h

/-- C2 witness for the amended theorem at a concrete overflowing input. -/
theorem c2_deposit_wraps_witness :
    2 ^ 64 ≤ (State.mk (Identity.user 0) 1 (2 ^ 64 - 1)).total_deposited + 2 ∧
    ((deposit (State.mk (Identity.user 0) 1 (2 ^ 64 - 1)) (Identity.user 1)
        (Identity.user 2) (Identity.user 3) 2 (Except.ok ())).result = TxResult.ok ∧
     (deposit (State.mk (Identity.user 0) 1 (2 ^ 64 - 1)) (Identity.user 1)
        (Identity.user 2) (Identity.user 3) 2 (Except.ok ())).state.total_deposited
          = ((State.mk (Identity.user 0) 1 (2 ^ 64 - 1)).total_deposited + 2) % 2 ^ 64 ∧
     (deposit (State.mk (Identity.user 0) 1 (2 ^ 64 - 1)) (Identity.user 1)
        (Identity.user 2) (Identity.user 3) 2 (Except.ok ())).state.total_deposited
          < (State.mk (Identity.user 0) 1 (2 ^ 64 - 1)).total_deposited + 2) :=
  ⟨by decide,
   c2_deposit_wraps (State.mk (Identity.user 0) 1 (2 ^ 64 - 1)) (Identity.user 1)
     (Identity.user 2) (Identity.user 3) 2 (by decide)⟩

/-- C3: when the transfer CPI of a deposit fails, the failure is propagated as
the result and the vault state is returned exactly as it was before the call;
the increment is never applied on a failed transfer. -/
theorem c3_deposit_failure_no_mutation (s : State) (u ut vt : Identity) (a : Nat)
    (e : TransferError) :
    (deposit s u ut vt a (Except.error e)).result = TxResult.cpi e ∧
    (deposit s u ut vt a (Except.error e)).state = s :=
  ⟨rfl, rfl⟩

/-- C4 counterexample: from a fresh vault, two successful deposits of amounts
2^64 - 1 and 1 leave total_deposited at 0, while the exact sum of the amounts
of the successful deposits is 2^64. -/
theorem c4_sum_counterexample :
    (run (initializeBody (Identity.user 0) 1)
        [Op.dep (Identity.user 1) (Identity.user 2) (Identity.user 3) (2 ^ 64 - 1)
           (Except.ok ()),
         Op.dep (Identity.user 1) (Identity.user 2) (Identity.user 3) 1
           (Except.ok ())]).total_deposited
      ≠ (successfulDepositAmounts (initializeBody (Identity.user 0) 1)
          [Op.dep (Identity.user 1) (Identity.user 2) (Identity.user 3) (2 ^ 64 - 1)
             (Except.ok ()),
           Op.dep (Identity.user 1) (Identity.user 2) (Identity.user 3) 1
             (Except.ok ())]).sum := by
  decide

/-- C4 (amended): from a freshly initialized vault, after any trace of deposit
and withdraw operations, total_deposited equals the sum of the amounts of the
successful deposits reduced modulo 2^64 (the unchecked u64 addition wraps, so
the exact sum is obtained only while it stays below 2^64); failed deposits and
withdraws contribute nothing. -/
theorem c4_total_is_sum_mod (caller : Identity) (bump : Nat) (ops : List Op) :
    (run (initializeBody caller bump) ops).total_deposited
      = (successfulDepositAmounts (initializeBody caller bump) ops).sum % 2 ^ 64 := by
  have h := run_total_mod ops (initializeBody caller bump)
    ((by norm_num : (0 : Nat) < 2 ^ 64))
  simpa [initializeBody] using h

/-- C5 counterexample: total_deposited can decrease: a successful deposit of 2
on a vault whose accumulator is at 2^64 - 1 wraps it down to 1. -/
theorem c5_monotonic_counterexample :
    (step (State.mk (Identity.user 0) 1 (2 ^ 64 - 1))
        (Op.dep (Identity.user 1) (Identity.user 2) (Identity.user 3) 2
          (Except.ok ()))).state.total_deposited
      < (State.mk (Identity.user 0) 1 (2 ^ 64 - 1)).total_deposited := by
  decide

/-- C5 (amended): every deposit or withdraw — overflowing deposits included —
leaves authority and bump unchanged, and a withdraw (successful or not)
returns the state with no field mutated; total_deposited never decreases
provided the deposit addition does not overflow u64 — without that proviso the
unchecked addition can wrap the accumulator downward. -/
theorem c5_invariants (s : State) (op : Op) :
    (step s op).state.authority = s.authority ∧
    (step s op).state.bump = s.bump ∧
    (s.total_deposited + opDepositAmount op < 2 ^ 64 →
      s.total_deposited ≤ (step s op).state.total_deposited) ∧
    (isWd op = true → (step s op).state = s) := by
  cases op with
  | dep u ut vt a tr =>
    cases tr with
    | error e =>
      exact ⟨rfl, rfl, fun _ => Nat.le_refl _, fun hw => Bool.noConfusion hw⟩
    | ok v =>
      cases v
      refine ⟨rfl, rfl, fun h => ?_, fun hw => Bool.noConfusion hw⟩
      have ha : s.total_deposited + a < 2 ^ 64 := h
      show s.total_deposited ≤ (s.total_deposited + a) % 2 ^ 64
      rw [Nat.mod_eq_of_lt ha]
      exact Nat.le_add_right _ _
  | wd c ut vt a tr =>
    have hs : (step s (Op.wd c ut vt a tr)).state = s :=
      withdraw_state_eq s c ut vt a tr
    exact ⟨by rw [hs], by rw [hs], fun _ => by rw [hs], fun _ => hs⟩

/-- C5 witness: the theorem applied at a concrete non-overflowing deposit,
with the monotonicity proviso discharged. -/
theorem c5_invariants_witness :
    ((State.mk (Identity.user 0) 1 5).total_deposited
        + opDepositAmount (Op.dep (Identity.user 1) (Identity.user 2)
            (Identity.user 3) 4 (Except.ok ())) < 2 ^ 64) ∧
    ((step (State.mk (Identity.user 0) 1 5)
        (Op.dep (Identity.user 1) (Identity.user 2) (Identity.user 3) 4
          (Except.ok ()))).state.authority = (State.mk (Identity.user 0) 1 5).authority ∧
     (step (State.mk (Identity.user 0) 1 5)
        (Op.dep (Identity.user 1) (Identity.user 2) (Identity.user 3) 4
          (Except.ok ()))).state.bump = (State.mk (Identity.user 0) 1 5).bump ∧
     (State.mk (Identity.user 0) 1 5).total_deposited
        ≤ (step (State.mk (Identity.user 0) 1 5)
            (Op.dep (Identity.user 1) (Identity.user 2) (Identity.user 3) 4
              (Except.ok ()))).state.total_deposited) :=
  ⟨by decide,
   (c5_invariants (State.mk (Identity.user 0) 1 5)
      (Op.dep (Identity.user 1) (Identity.user 2) (Identity.user 3) 4
        (Except.ok ()))).1,
   (c5_invariants (State.mk (Identity.user 0) 1 5)
      (Op.dep (Identity.user 1) (Identity.user 2) (Identity.user 3) 4
        (Except.ok ()))).2.1,
   (c5_invariants (State.mk (Identity.user 0) 1 5)
      (Op.dep (Identity.user 1) (Identity.user 2) (Identity.user 3) 4
        (Except.ok ()))).2.2.1 (by decide)⟩

/-- C6: a second initialization against an existing vault record fails with
the AlreadyInitialized framework error, issues no transfer CPI, and leaves the
stored authority, bump, and total_deposited exactly unchanged. -/
theorem c6_initialize_one_shot (s : State) (caller : Identity) (bump : Nat) :
    (initializeOp (some s) caller bump).result = TxResult.alreadyInitialized ∧
    (initializeOp (some s) caller bump).state = some s ∧
    (initializeOp (some s) caller bump).cpis = [] :=
  ⟨rfl, rfl, rfl⟩

/-- C7: initializing an absent vault record succeeds and creates the state
with authority equal to the caller, bump equal to the passed bump value, and
total_deposited equal to 0, performing no token transfer. -/
theorem c7_initialize_effect (caller : Identity) (bump : Nat) :
    (initializeOp none caller bump).result = TxResult.ok ∧
    (initializeOp none caller bump).state
        = some { authority := caller, bump := bump, total_deposited := 0 } ∧
    (initializeOp none caller bump).cpis = [] :=
  ⟨rfl, rfl, rfl⟩

/-- C8: every withdraw that reaches the transfer step authorizes it with the
program-owned identity re-derived from the fixed seed label and the stored
bump — not a plain user key such as the human authority — and the derivation
is a pure function of the label and the bump, hence the same pair always
yields the same derived identity. -/
theorem c8_withdraw_derived_signer (s : State) (caller ut vt : Identity) (a : Nat)
    (tr : Except TransferError Unit) (h : caller = s.authority) :
    (withdraw s caller ut vt a tr).cpis
        = [{ source := vt, dest := ut,
             authorized_by := deriveSigningIdentity stateSeed s.bump, amount := a }] ∧
    deriveSigningIdentity stateSeed s.bump = Identity.derived stateSeed s.bump ∧
    isUserKey (deriveSigningIdentity stateSeed s.bump) = false := by
  refine ⟨?_, rfl, rfl⟩
  rw [withdraw_authorized_eq s caller ut vt a tr h]

/-- C8 witness at a concrete authorized withdraw. -/
theorem c8_withdraw_derived_signer_witness :
    Identity.user 0 = (State.mk (Identity.user 0) 7 0).authority ∧
    ((withdraw (State.mk (Identity.user 0) 7 0) (Identity.user 0) (Identity.user 1)
        (Identity.user 2) 5 (Except.ok ())).cpis
          = [{ source := Identity.user 2, dest := Identity.user 1,
               authorized_by := deriveSigningIdentity stateSeed
                 (State.mk (Identity.user 0) 7 0).bump, amount := 5 }] ∧
     deriveSigningIdentity stateSeed (State.mk (Identity.user 0) 7 0).bump
        = Identity.derived stateSeed (State.mk (Identity.user 0) 7 0).bump ∧
     isUserKey (deriveSigningIdentity stateSeed
        (State.mk (Identity.user 0) 7 0).bump) = false) :=
  ⟨rfl,
   c8_withdraw_derived_signer (State.mk (Identity.user 0) 7 0) (Identity.user 0)
     (Identity.user 1) (Identity.user 2) 5 (Except.ok ()) rfl⟩

/-- C9: deposit performs no validation of the amount at all: for every amount,
including zero, it issues exactly one transfer CPI carrying that amount with
the depositor as authorizer, and its result is never one of the program error
codes (in particular no InvalidAmount variant exists to fail with); the only
possible failure is the propagated transfer error. -/
theorem c9_deposit_no_amount_validation (s : State) (u ut vt : Identity) (a : Nat)
    (tr : Except TransferError Unit) :
    (deposit s u ut vt a tr).cpis
        = [{ source := ut, dest := vt, authorized_by := u, amount := a }] ∧
    isProgramCode (deposit s u ut vt a tr).result = false := by
  cases tr with
  | error e => exact ⟨rfl, rfl⟩
  | ok v => exact ⟨rfl, rfl⟩

/-- C10: the error taxonomy declares InsufficientBalance but no handler ever
returns it; in particular an authorized withdraw issues the transfer CPI with
the requested amount for every amount, with no balance comparison. -/
theorem c10_insufficient_balance_unreachable :
    ErrorCode.InsufficientBalance ∈ declaredErrorCodes ∧
    (∀ (s : State) (caller ut vt : Identity) (a : Nat)
        (tr : Except TransferError Unit),
      isInsufficientBalanceErr (withdraw s caller ut vt a tr).result = false) ∧
    (∀ (s : State) (u ut vt : Identity) (a : Nat) (tr : Except TransferError Unit),
      isInsufficientBalanceErr (deposit s u ut vt a tr).result = false) ∧
    (∀ (store : Option State) (caller : Identity) (bump : Nat),
      isInsufficientBalanceErr (initializeOp store caller bump).result = false) ∧
    (∀ (s : State) (ut vt : Identity) (a : Nat) (tr : Except TransferError Unit),
      (withdraw s s.authority ut vt a tr).cpis.map TransferCall.amount = [a]) := by
  refine ⟨by simp [declaredErrorCodes], ?_, ?_, ?_, ?_⟩
  · intro s caller ut vt a tr
    by_cases h : caller = s.authority
    · rw [withdraw_authorized_eq s caller ut vt a tr h]
      cases tr <;> rfl
    · rw [withdraw_unauthorized_eq s caller ut vt a tr h]
      rfl
  · intro s u ut vt a tr
    cases tr <;> rfl
  · intro store caller bump
    cases store <;> rfl
  · intro s ut vt a tr
    rw [withdraw_authorized_eq s s.authority ut vt a tr rfl]
    rfl

end ExampleSolanaProgram
